import Mathlib

/-!
Verification development for the Ollama vision-agent script (`src/main.py`).

The single operation of the script is `VisionAgent.process_message`: it joins the
text parts of a multimodal message into one prompt, base64-encodes the image
parts into data URIs, builds a chat-completions payload, POSTs it once, and
turns the response (or any raised exception) into an `AssistantResponse`.
The definitions below are a shallow embedding of that pipeline: Python bytes
are `List Nat` (each byte < 256), JSON values are the `Json` inductive,
raised exceptions are the `PyExc` error type threaded through `Except`,
and the HTTP transport is an explicit function parameter so that stub
transports can be supplied.
-/

namespace OllamaGemma

/-- JSON values, as returned by `response.json()` in `src/main.py`. -/
inductive Json where
  | null
  | bool (b : Bool)
  | num (n : Int)
  | str (s : String)
  | arr (elems : List Json)
  | obj (fields : List (String × Json))

/-- Python exceptions that the `try` block of `process_message` can see.
`apiError` is the `Exception` raised on line 104 for a non-200 status;
`keyError` / `indexError` / `typeError` arise from the subscripting on
line 107; `transportError` models an `aiohttp` connection failure;
`jsonError` models `response.json()` failing to parse; `validationError`
models pydantic rejecting a non-string `content`. -/
inductive PyExc where
  | keyError (key : String)
  | indexError
  | typeError (m : String)
  | apiError (status : Nat) (body : String)
  | transportError (m : String)
  | jsonError (m : String)
  | validationError (m : String)

/-- `str(e)` for each modelled exception: `str(KeyError(k))` is the key in
quotes, `str(IndexError(...))` is "list index out of range", and the
`Exception` raised on line 104 carries the f-string from the source. -/
def PyExc.msg : PyExc → String
  | .keyError k => "\x27" ++ k ++ "\x27"
  | .indexError => "list index out of range"
  | .typeError m => m
  | .apiError status body => "API error (status " ++ toString status ++ "): " ++ body
  | .transportError m => m
  | .jsonError m => m
  | .validationError m => m

/-- Python `d[k]` on a parsed-JSON object: `KeyError` when the key is
missing; subscripting a non-object with a string key is collapsed to a
`TypeError` in this model. -/
def Json.getKey : Json → String → Except PyExc Json
  | .obj fields, k =>
    match fields.lookup k with
    | some v => .ok v
    | none => .error (.keyError k)
  | _, k => .error (.typeError ("value is not subscriptable with key " ++ k))

/-- Python `l[i]` on a parsed-JSON array: `IndexError` when out of range;
indexing a non-array is collapsed to a `TypeError` in this model. -/
def Json.getIdx : Json → Nat → Except PyExc Json
  | .arr elems, i =>
    match elems.get? i with
    | some v => .ok v
    | none => .error .indexError
  | _, _ => .error (.typeError "value is not index-subscriptable")

/-- `ModelInfo` (lines 11-17). -/
structure ModelInfo where
  vision : Bool := true
  json_output : Bool := false
  function_calling : Bool := false
  family : String := "unknown"
  structured_output : Bool := false

/-- `OllamaConfig` (lines 20-25). -/
structure OllamaConfig where
  model : String
  base_url : String := "http://localhost:11434/v1"
  api_key : String := "ollama"
  model_info : ModelInfo

/-- `TextContent` (lines 28-31); the `type` discriminator is the
constructor tag of `MessageContent`. -/
structure TextContent where
  data : String

/-- `ImageContent` (lines 34-38): raw bytes plus a declared format,
defaulting to "jpeg". Bytes are modelled as `List Nat`, each < 256. -/
structure ImageContent where
  data : List Nat
  format : String := "jpeg"

/-- One element of `MultiModalMessage.content`
(`Union[TextContent, ImageContent]`, line 43). -/
inductive MessageContent where
  | text (c : TextContent)
  | image (c : ImageContent)

/-- `MultiModalMessage` (lines 41-44). -/
structure MultiModalMessage where
  content : List MessageContent
  source : String

/-- `AssistantResponse` (lines 47-50). -/
structure AssistantResponse where
  role : String := "assistant"
  content : String
deriving DecidableEq

/-- The filter `item.type == "text"` on line 64, extracting `item.data`. -/
def contentText? : MessageContent → Option String
  | .text c => some c.data
  | .image _ => none

/-- The filter `item.type == "image"` on line 65. -/
def contentImage? : MessageContent → Option ImageContent
  | .image c => some c
  | .text _ => none

/-- The standard base64 alphabet used by the Python function `base64.b64encode`. -/
def b64Alphabet : List Char :=
  "ABCDEFGHIJKLMNOPQRSTUVWXYZabcdefghijklmnopqrstuvwxyz0123456789+/".toList

/-- Character for a sextet value (only used with values < 64). -/
def encChar (s : Nat) : Char := b64Alphabet.getD s 'A'

/-- Sextet value of a base64 character, `none` for characters outside the
alphabet (including the padding character). -/
def decChar (ch : Char) : Option Nat := b64Alphabet.findIdx? (fun c => c == ch)

/-- `base64.b64encode` on a byte list, as a character list: three input
bytes become four sextet characters, with `=` padding for a final chunk of
one or two bytes. -/
def b64chars : List Nat → List Char
  | [] => []
  | [b1] => [encChar (b1 / 4), encChar (b1 % 4 * 16), '=', '=']
  | [b1, b2] =>
      [encChar (b1 / 4), encChar (b1 % 4 * 16 + b2 / 16), encChar (b2 % 16 * 4), '=']
  | b1 :: b2 :: b3 :: rest =>
      encChar (b1 / 4) :: encChar (b1 % 4 * 16 + b2 / 16) ::
        encChar (b2 % 16 * 4 + b3 / 64) :: encChar (b3 % 64) :: b64chars rest

/-- `base64.b64encode(item.data).decode("utf-8")` (line 78). -/
def b64encodeStr (bs : List Nat) : String := String.mk (b64chars bs)

/-- Standard base64 decoding of a character list: `none` on any character
outside the alphabet or misplaced padding. -/
def b64decodeChars : List Char → Option (List Nat)
  | [] => some []
  | c1 :: c2 :: c3 :: c4 :: rest =>
      if c3 = '=' ∧ c4 = '=' ∧ rest = [] then
        match decChar c1, decChar c2 with
        | some s1, some s2 => some [s1 * 4 + s2 / 16]
        | _, _ => none
      else if c4 = '=' ∧ rest = [] then
        match decChar c1, decChar c2, decChar c3 with
        | some s1, some s2, some s3 =>
            some [s1 * 4 + s2 / 16, s2 % 16 * 16 + s3 / 4]
        | _, _, _ => none
      else
        match decChar c1, decChar c2, decChar c3, decChar c4, b64decodeChars rest with
        | some s1, some s2, some s3, some s4, some tl =>
            some ((s1 * 4 + s2 / 16) :: (s2 % 16 * 16 + s3 / 4) :: (s3 % 4 * 64 + s4) :: tl)
        | _, _, _, _, _ => none
  | _ => none

/-- Standard base64 decoding of a string. -/
def b64decode (s : String) : Option (List Nat) := b64decodeChars s.toList

/-- The image element built on lines 78-82: the data URI hardcodes the
`image/jpeg` subtype in the f-string on line 81 (the declared
`format` of the item is not consulted). -/
def encodeImageItem (item : ImageContent) : Json :=
  Json.obj
    [("type", Json.str "image_url"),
     ("image_url",
        Json.obj [("url", Json.str ("data:image/jpeg;base64," ++ b64encodeStr item.data))])]

/-- The payload dict built on lines 85-93: one user-role message whose
content is the text element followed by the image elements. -/
def buildPayload (model : String) (prompt : String) (image_items : List ImageContent) : Json :=
  Json.obj
    [("model", Json.str model),
     ("messages",
        Json.arr
          [Json.obj
            [("role", Json.str "user"),
             ("content",
                Json.arr
                  (Json.obj [("type", Json.str "text"), ("text", Json.str prompt)]
                    :: image_items.map encodeImageItem))]])]

/-- Outcome of `session.post` as the `try` block observes it: either an
HTTP response (with its status, its `text()` body and the result of
`json()` parsing), or a connection-level exception. -/
inductive TransportOutcome where
  | httpResponse (status : Nat) (text : String) (body : Except String Json)
  | connectionError (m : String)

/-- A transport: the function consulted by the single `session.post` call,
given the request URL and the JSON payload. -/
def Transport : Type := String → Json → TransportOutcome

/-- `result["choices"][0]["message"]["content"]` (line 107) followed by
the pydantic check that `AssistantResponse.content` is a string. -/
def extractContent (result : Json) : Except PyExc String := do
  let choices ← result.getKey "choices"
  let c0 ← choices.getIdx 0
  let m ← c0.getKey "message"
  let contentJ ← m.getKey "content"
  match contentJ with
  | .str s => pure s
  | _ => .error (.validationError "content is not a valid string")

/-- The body of the `try` block after the POST (lines 102-107): raise
`apiError` on a non-200 status, otherwise parse and extract the reply. -/
def tryBody : TransportOutcome → Except PyExc String
  | .connectionError m => .error (.transportError m)
  | .httpResponse status text body =>
      if status ≠ 200 then .error (.apiError status text)
      else
        match body with
        | .error m => .error (.jsonError m)
        | .ok result => extractContent result

/-- The `except` clause (lines 109-112) applied to the try-block outcome:
a successful extraction is returned as-is, any exception becomes an
`AssistantResponse` whose content is "Error: " followed by `str(e)`. -/
def respOf : Except PyExc String → AssistantResponse
  | .ok s => { role := "assistant", content := s }
  | .error e => { role := "assistant", content := "Error: " ++ e.msg }

/-- Whether the `except` branch ran. -/
def failedOf : Except PyExc String → Bool
  | .ok _ => false
  | .error _ => true

/-- Result of one `process_message` run: the returned response, the list
of (url, payload) requests actually POSTed, and whether the `except`
branch ran. -/
structure RunResult where
  response : AssistantResponse
  requests : List (String × Json)
  failed : Bool

/-- `VisionAgent.process_message` (lines 61-112): join the text parts with
single spaces into the prompt, collect the image parts, build the payload,
POST it exactly once, and convert the outcome via the `except` clause.
The POST happens before the status check, so the request is recorded on
every path. -/
def process_message (cfg : OllamaConfig) (message : MultiModalMessage)
    (transport : Transport) : RunResult :=
  let prompt := String.intercalate " " (message.content.filterMap contentText?)
  let image_items := message.content.filterMap contentImage?
  let url := cfg.base_url ++ "/chat/completions"
  let payload := buildPayload cfg.model prompt image_items
  let outcome := tryBody (transport url payload)
  { response := respOf outcome, requests := [(url, payload)], failed := failedOf outcome }

/-- The hardcoded image path of `main` (line 135). -/
def image_path : String := "GettyImages.jpg"

/-- The configuration built in `main` (lines 126-129): explicit `model`
and `model_info`, all other fields at their declared defaults. -/
def mainConfig : OllamaConfig :=
  { model := "gemma3:4b",
    base_url := "http://localhost:11434/v1",
    api_key := "ollama",
    model_info :=
      { vision := true, json_output := false, function_calling := false,
        family := "unknown", structured_output := false } }

/-- The filesystem as `main` consults it: `pathExists` models
`os.path.exists` (line 138), `readBytes` the `open`/`read` on lines
146-147, consulted only after the existence check passes. -/
structure FileSystem where
  pathExists : String → Bool
  readBytes : String → List Nat

/-- Outcome of one `main` run: either the early return of lines 138-143
after reporting the missing image, or the processed response. -/
inductive MainResult where
  | imageNotFound
  | completed (r : AssistantResponse)

/-- `main` (lines 115-161): check that the image exists (early return
reporting the missing file otherwise), read its bytes, build the fixed
two-part message of lines 150-156, and run `process_message`. Paired with
the run result is the list of requests POSTed during the run. -/
def mainRun (fs : FileSystem) (transport : Transport) : MainResult × List (String × Json) :=
  if fs.pathExists image_path then
    let image_data := fs.readBytes image_path
    let message : MultiModalMessage :=
      { content :=
          [MessageContent.text { data := "Can you describe the content of this image?" },
           MessageContent.image { data := image_data, format := "jpeg" }],
        source := "user" }
    let r := process_message mainConfig message transport
    (MainResult.completed r.response, r.requests)
  else (MainResult.imageNotFound, [])

/-- Object-field lookup, `none` outside objects (observer used to state
properties of built payloads). -/
def Json.lookup? : Json → String → Option Json
  | .obj fields, k => fields.lookup k
  | _, _ => none

/-- View a JSON value as an array. -/
def Json.asArr? : Json → Option (List Json)
  | .arr elems => some elems
  | _ => none

/-- The `messages` array of a payload. -/
def messagesOf (payload : Json) : Option (List Json) :=
  (payload.lookup? "messages").bind Json.asArr?

/-- The `content` array of a message object. -/
def contentOf (m : Json) : Option (List Json) :=
  (m.lookup? "content").bind Json.asArr?

/-- The `role` string of a message object. -/
def roleOf (m : Json) : Option String :=
  match m.lookup? "role" with
  | some (Json.str s) => some s
  | _ => none

/-- The text element `{"type": "text", "text": p}` of line 90. -/
def textElem (p : String) : Json :=
  Json.obj [("type", Json.str "text"), ("text", Json.str p)]

/-- Whether a content element carries `"type": "text"`. -/
def isTextElem (j : Json) : Bool :=
  match j.lookup? "type" with
  | some (Json.str "text") => true
  | _ => false

/-- The `image_url.url` string of an image content element. -/
def imageUrlStr? (j : Json) : Option String :=
  match (j.lookup? "image_url").bind (fun x => x.lookup? "url") with
  | some (Json.str s) => some s
  | _ => none

/-- A stub transport answering 200 with a given parsed JSON body. -/
def stubOk (j : Json) : Transport :=
  fun _ _ => .httpResponse 200 "" (.ok j)

/-- A stub transport answering a given HTTP status with a raw text body. -/
def stubHttp (status : Nat) (body : String) : Transport :=
  fun _ _ => .httpResponse status body (.error "invalid json body")

/-- A stub transport raising a connection-level exception. -/
def stubConn (m : String) : Transport :=
  fun _ _ => .connectionError m

/-- The well-formed response body of the spec:
`{"choices":[{"message":{"content": s}}]}`. -/
def wellFormedBody (s : String) : Json :=
  Json.obj [("choices", Json.arr [Json.obj [("message", Json.obj [("content", Json.str s)])]])]

/-- A small concrete message used in counterexamples and witnesses. -/
def msg0 : MultiModalMessage :=
  { content := [MessageContent.text { data := "describe" }], source := "user" }

/-- A concrete attachment whose declared subtype is not "jpeg". -/
def pngItem : ImageContent := { data := [1, 2, 3], format := "png" }

/-- A concrete four-byte attachment. -/
def jpegItem : ImageContent := { data := [10, 200, 33, 7], format := "jpeg" }

/-- A filesystem with no files at all. -/
def fsMissing : FileSystem := { pathExists := fun _ => false, readBytes := fun _ => [] }

/-- A concrete message with two text parts and one image part. -/
def msg9 : MultiModalMessage :=
  { content :=
      [MessageContent.text { data := "describe" },
       MessageContent.image jpegItem,
       MessageContent.text { data := "briefly" }],
    source := "user" }

/-- Decoding a base64 character produced from a sextet value recovers the
sextet. -/
theorem decChar_encChar : ∀ s : Nat, s < 64 → decChar (encChar s) = some s := by decide

/-- The base64 alphabet never produces the padding character. -/
theorem encChar_ne_pad (s : Nat) : encChar s ≠ '=' := by
  rcases Nat.lt_or_ge s 64 with h | h
  · exact (show ∀ t : Nat, t < 64 → encChar t ≠ '=' by decide) s h
  · have hlen : b64Alphabet.length = 64 := by decide
    unfold encChar
    rw [List.getD_eq_default _ _ (by omega)]
    decide

/-- Base64 round-trip on byte lists: decoding the encoding of any list of
bytes (each < 256) recovers the list. -/
theorem b64_roundtrip : ∀ bs : List Nat, (∀ b ∈ bs, b < 256) →
    b64decodeChars (b64chars bs) = some bs
  | [], _ => rfl
  | [b1], h => by
      have h1 : b1 < 256 := h b1 (by simp)
      have e1 := decChar_encChar (b1 / 4) (by omega)
      have e2 := decChar_encChar (b1 % 4 * 16) (by omega)
      simp [b64chars, b64decodeChars, e1, e2]
      all_goals omega
  | [b1, b2], h => by
      have h1 : b1 < 256 := h b1 (by simp)
      have h2 : b2 < 256 := h b2 (by simp)
      have e1 := decChar_encChar (b1 / 4) (by omega)
      have e2 := decChar_encChar (b1 % 4 * 16 + b2 / 16) (by omega)
      have e3 := decChar_encChar (b2 % 16 * 4) (by omega)
      simp [b64chars, b64decodeChars, encChar_ne_pad, e1, e2, e3]
      all_goals omega
  | b1 :: b2 :: b3 :: rest, h => by
      have ih := b64_roundtrip rest (fun b hb => h b (by simp [hb]))
      have h1 : b1 < 256 := h b1 (by simp)
      have h2 : b2 < 256 := h b2 (by simp)
      have h3 : b3 < 256 := h b3 (by simp)
      have e1 := decChar_encChar (b1 / 4) (by omega)
      have e2 := decChar_encChar (b1 % 4 * 16 + b2 / 16) (by omega)
      have e3 := decChar_encChar (b2 % 16 * 4 + b3 / 64) (by omega)
      have e4 := decChar_encChar (b3 % 64) (by omega)
      simp [b64chars, b64decodeChars, encChar_ne_pad, e1, e2, e3, e4, ih]
      all_goals omega

/-- The response role is "assistant" on both the success and the except
path. -/
theorem respOf_role (r : Except PyExc String) : (respOf r).role = "assistant" := by
  cases r <;> rfl

/-- When the except branch runs, the content starts with "Error: ". -/
theorem respOf_error (r : Except PyExc String) (h : failedOf r = true) :
    ∃ rest, (respOf r).content = "Error: " ++ rest := by
  cases r with
  | ok s => simp [failedOf] at h
  | error e => exact ⟨e.msg, rfl⟩

/-- A text element satisfies `isTextElem` and an encoded image element
does not, so the content list built on line 90 has exactly one text
element. -/
theorem countP_isTextElem (prompt : String) (image_items : List ImageContent) :
    (Json.obj [("type", Json.str "text"), ("text", Json.str prompt)]
        :: image_items.map encodeImageItem).countP isTextElem = 1 := by
  rw [List.countP_cons_of_pos _ _ (by rfl)]
  have h0 : (image_items.map encodeImageItem).countP isTextElem = 0 := by
    rw [List.countP_eq_zero]
    intro j hj
    obtain ⟨item, _, rfl⟩ := List.mem_map.mp hj
    simp [isTextElem, encodeImageItem, Json.lookup?]
  omega

/-- C1 (amended): on a 200 response whose body is
`{"choices":[{"message":{"content": s}}]}` the pipeline returns exactly
the string `s`; on a 200 response whose body is `{}`, `{"choices":[]}`,
or has no `content` field, it does not throw but returns a plain
`AssistantResponse` whose content is "Error: " followed by the text of
the Python exception raised by the subscripting on line 107 — there is no
distinct MalformedResponse error kind. -/
theorem c1_decode_amended (message : MultiModalMessage) (s : String) :
    ((process_message mainConfig message (stubOk (wellFormedBody s))).response
        = { role := "assistant", content := s }
      ∧ (process_message mainConfig message (stubOk (wellFormedBody s))).failed = false)
    ∧ ((process_message mainConfig message (stubOk (Json.obj []))).response
        = { role := "assistant", content := "Error: \x27choices\x27" }
      ∧ (process_message mainConfig message (stubOk (Json.obj []))).failed = true)
    ∧ ((process_message mainConfig message
          (stubOk (Json.obj [("choices", Json.arr [])]))).response
        = { role := "assistant", content := "Error: list index out of range" }
      ∧ (process_message mainConfig message
          (stubOk (Json.obj [("choices", Json.arr [])]))).failed = true)
    ∧ ((process_message mainConfig message
          (stubOk (Json.obj [("choices",
            Json.arr [Json.obj [("message", Json.obj [])]])]))).response
        = { role := "assistant", content := "Error: \x27content\x27" }
      ∧ (process_message mainConfig message
          (stubOk (Json.obj [("choices",
            Json.arr [Json.obj [("message", Json.obj [])]])]))).failed = true) :=
  ⟨⟨rfl, rfl⟩, ⟨rfl, rfl⟩, ⟨rfl, rfl⟩, ⟨rfl, rfl⟩⟩

/-- C1 (interpreted instance): the amended behaviour at the concrete
message `msg0`. -/
theorem c1_decode_witness :
    ((process_message mainConfig msg0 (stubOk (wellFormedBody "hello"))).response
        = { role := "assistant", content := "hello" })
    ∧ ((process_message mainConfig msg0 (stubOk (Json.obj []))).response
        = { role := "assistant", content := "Error: \x27choices\x27" }) :=
  ⟨((c1_decode_amended msg0 "hello").1).1, ((c1_decode_amended msg0 "hello").2.1).1⟩

/-- C1 (counterexample to the claim as stated): the result for the
malformed body `{}` is byte-for-byte identical to the result of a
successful run whose reply text happens to be that same error string — the
malformed-body outcome is not a distinct, inspectable MalformedResponse
error. -/
theorem c1_decode_counterexample :
    (process_message mainConfig msg0 (stubOk (Json.obj []))).response
      = (process_message mainConfig msg0
          (stubOk (wellFormedBody "Error: \x27choices\x27"))).response
    ∧ (process_message mainConfig msg0 (stubOk (Json.obj []))).failed = true
    ∧ (process_message mainConfig msg0
        (stubOk (wellFormedBody "Error: \x27choices\x27"))).failed = false := by
  refine ⟨by decide, rfl, rfl⟩

/-- C2 (counterexample to the claim as stated): for an attachment with
declared subtype "png", the URL built by line 81 is not
`data:image/png;base64,<payload>` — the f-string hardcodes "jpeg". -/
theorem c2_subtype_counterexample :
    imageUrlStr? (encodeImageItem pngItem)
      ≠ some ("data:image/" ++ pngItem.format ++ ";base64," ++ b64encodeStr pngItem.data) := by
  decide

/-- C2 (amended): the data URI built for every attachment uses the
subtype "jpeg" regardless of the declared subtype of the attachment; it
matches the declared subtype only when that subtype is "jpeg" (the
default). -/
theorem c2_subtype_amended (item : ImageContent) :
    imageUrlStr? (encodeImageItem item)
      = some ("data:image/jpeg;base64," ++ b64encodeStr item.data) := rfl

/-- C3: for every prompt, model and image list, the payload has a single
user-role message whose content has length N+1, the text element equal to
the prompt first, then the encoded images in input order; with zero
images the content is exactly the one text element. -/
theorem c3_content_shape (model prompt : String) (image_items : List ImageContent) :
    ∃ um content,
      messagesOf (buildPayload model prompt image_items) = some [um]
      ∧ roleOf um = some "user"
      ∧ contentOf um = some content
      ∧ content.length = image_items.length + 1
      ∧ content.head? = some (textElem prompt)
      ∧ content.drop 1 = image_items.map encodeImageItem
      ∧ (image_items = [] → content = [textElem prompt]) := by
  refine ⟨_, _, rfl, rfl, rfl, ?_, rfl, rfl, ?_⟩
  · simp
  · intro h
    subst h
    rfl

/-- C3 (interpreted instance): the shape at a concrete prompt and a
two-image list. -/
theorem c3_content_shape_witness :
    ∃ um content,
      messagesOf (buildPayload "gemma3:4b" "describe" [pngItem, pngItem]) = some [um]
      ∧ roleOf um = some "user"
      ∧ contentOf um = some content
      ∧ content.length = [pngItem, pngItem].length + 1
      ∧ content.head? = some (textElem "describe")
      ∧ content.drop 1 = [pngItem, pngItem].map encodeImageItem
      ∧ ([pngItem, pngItem] = ([] : List ImageContent) → content = [textElem "describe"]) :=
  c3_content_shape "gemma3:4b" "describe" [pngItem, pngItem]

/-- C4 (amended): for every non-200 status the pipeline returns a plain
`AssistantResponse` whose content embeds the status code and the raw body
in the message string "Error: API error (status s): b" (there is no
structured ApiError result), and the transport is consulted exactly once
(no retry). -/
theorem c4_apierror_amended (message : MultiModalMessage) (status : Nat) (body : String)
    (h : status ≠ 200) :
    (process_message mainConfig message (stubHttp status body)).response
      = { role := "assistant",
          content := "Error: API error (status " ++ toString status ++ "): " ++ body }
    ∧ (process_message mainConfig message (stubHttp status body)).requests.length = 1 := by
  constructor
  · show respOf (tryBody (TransportOutcome.httpResponse status body
      (Except.error "invalid json body"))) = _
    simp only [tryBody, if_pos h, respOf, PyExc.msg, AssistantResponse.mk.injEq, true_and]
    rw [show ("Error: API error (status " : String)
          = "Error: " ++ "API error (status " from by decide]
    simp only [String.append_assoc]
  · rfl

/-- C4 (witness): the amended behaviour at status 500 and body
"server error". -/
theorem c4_apierror_witness :
    ((500 : Nat) ≠ 200)
    ∧ ((process_message mainConfig msg0 (stubHttp 500 "server error")).response
        = { role := "assistant",
            content := "Error: API error (status " ++ toString (500 : Nat) ++ "): "
              ++ "server error" }
      ∧ (process_message mainConfig msg0 (stubHttp 500 "server error")).requests.length = 1) :=
  ⟨by decide, c4_apierror_amended msg0 500 "server error" (by decide)⟩

/-- C4 (counterexample to the claim as stated): the result for a 500
response with body "server error" is byte-for-byte identical to the
result of a successful 200 run whose reply text happens to be
"Error: API error (status 500): server error" — the pipeline does not
yield a structured, inspectable `ApiError(status, body)` result. -/
theorem c4_apierror_counterexample :
    (process_message mainConfig msg0 (stubHttp 500 "server error")).response
      = (process_message mainConfig msg0
          (stubOk (wellFormedBody "Error: API error (status 500): server error"))).response
    ∧ (process_message mainConfig msg0 (stubHttp 500 "server error")).failed = true
    ∧ (process_message mainConfig msg0
        (stubOk (wellFormedBody "Error: API error (status 500): server error"))).failed
        = false := by
  refine ⟨by decide, rfl, rfl⟩

/-- C5 (amended): every failure inside `process_message` is returned as a
plain `AssistantResponse` whose content is "Error: " followed by the
exception text, so failure kinds are distinguishable only through the
message text; only the missing-image case is a structurally distinct
outcome, as the early return of `main`. -/
theorem c5_errors_amended (message : MultiModalMessage) (m : String) (status : Nat)
    (body : String) (h : status ≠ 200) :
    (process_message mainConfig message (stubConn m)).response.content = "Error: " ++ m
    ∧ (process_message mainConfig message (stubHttp status body)).response.content
        = "Error: " ++ ("API error (status " ++ toString status ++ "): " ++ body)
    ∧ (process_message mainConfig message (stubOk (Json.obj []))).response.content
        = "Error: " ++ "\x27choices\x27"
    ∧ (∀ fs transport, fs.pathExists image_path = false →
        mainRun fs transport = (MainResult.imageNotFound, [])) := by
  refine ⟨rfl, ?_, rfl, ?_⟩
  · show (respOf (tryBody (TransportOutcome.httpResponse status body
      (Except.error "invalid json body")))).content = _
    simp [tryBody, if_pos h, respOf, PyExc.msg]
  · intro fs transport hfs
    simp [mainRun, hfs]

/-- C5 (witness): the amended behaviour at concrete inputs. -/
theorem c5_errors_witness :
    ((500 : Nat) ≠ 200)
    ∧ ((process_message mainConfig msg0 (stubConn "Cannot connect to host")).response.content
        = "Error: " ++ "Cannot connect to host"
      ∧ (process_message mainConfig msg0 (stubHttp 500 "server error")).response.content
          = "Error: " ++ ("API error (status " ++ toString (500 : Nat) ++ "): " ++ "server error")
      ∧ (process_message mainConfig msg0 (stubOk (Json.obj []))).response.content
          = "Error: " ++ "\x27choices\x27"
      ∧ (∀ fs transport, fs.pathExists image_path = false →
          mainRun fs transport = (MainResult.imageNotFound, []))) :=
  ⟨by decide, c5_errors_amended msg0 "Cannot connect to host" 500 "server error" (by decide)⟩

/-- C5 (counterexample to the claim as stated): a transport-level failure
whose exception text mimics the API-error message yields a result
byte-for-byte identical to that of a genuine non-200 response — two
failures of different kinds are not distinguishable by the caller. -/
theorem c5_errors_counterexample :
    (process_message mainConfig msg0
        (stubConn "API error (status 500): server error")).response
      = (process_message mainConfig msg0 (stubHttp 500 "server error")).response
    ∧ (process_message mainConfig msg0
        (stubConn "API error (status 500): server error")).failed = true
    ∧ (process_message mainConfig msg0 (stubHttp 500 "server error")).failed = true := by
  refine ⟨by decide, rfl, rfl⟩

/-- C6: whenever the `os.path.exists` check of line 138 fails (the image
path is missing or inaccessible), `main` returns the image-not-found
outcome and the transport is never consulted: the list of POSTed requests
is empty. -/
theorem c6_imagenotfound (fs : FileSystem) (transport : Transport)
    (h : fs.pathExists image_path = false) :
    mainRun fs transport = (MainResult.imageNotFound, []) := by
  simp [mainRun, h]

/-- C6 (witness): with a filesystem lacking the image and a stub
transport, the run reports image-not-found and records zero requests. -/
theorem c6_imagenotfound_witness :
    fsMissing.pathExists image_path = false
    ∧ mainRun fsMissing (stubConn "refused") = (MainResult.imageNotFound, []) :=
  ⟨rfl, c6_imagenotfound fsMissing (stubConn "refused") rfl⟩

/-- C7: for every attachment whose bytes are genuine bytes (< 256), the
data URI the encoder builds for it is
`data:image/jpeg;base64,<payload>` and base64-decoding that payload
recovers the bytes of the attachment exactly. -/
theorem c7_base64_roundtrip (item : ImageContent) (h : ∀ b ∈ item.data, b < 256) :
    imageUrlStr? (encodeImageItem item)
      = some ("data:image/jpeg;base64," ++ b64encodeStr item.data)
    ∧ b64decode (b64encodeStr item.data) = some item.data :=
  ⟨rfl, b64_roundtrip item.data h⟩

/-- C7 (witness): the round trip at the concrete bytes [10, 200, 33, 7]. -/
theorem c7_base64_roundtrip_witness :
    (∀ b ∈ jpegItem.data, b < 256)
    ∧ (imageUrlStr? (encodeImageItem jpegItem)
        = some ("data:image/jpeg;base64," ++ b64encodeStr jpegItem.data)
      ∧ b64decode (b64encodeStr jpegItem.data) = some jpegItem.data) :=
  ⟨by decide, c7_base64_roundtrip jpegItem (by decide)⟩

/-- C8: request encoding is total — for every configuration, message and
transport, the run POSTs exactly one request, and its payload is the
result of the pure `buildPayload` transformation applied to the joined
prompt and the image list; no error branch is reachable before the POST. -/
theorem c8_encode_total (cfg : OllamaConfig) (message : MultiModalMessage)
    (transport : Transport) :
    (process_message cfg message transport).requests
      = [(cfg.base_url ++ "/chat/completions",
          buildPayload cfg.model
            (String.intercalate " " (message.content.filterMap contentText?))
            (message.content.filterMap contentImage?))] := rfl

/-- C8 (interpreted instance): the single request at concrete inputs. -/
theorem c8_encode_total_witness :
    (process_message mainConfig msg0 (stubConn "refused")).requests
      = [(mainConfig.base_url ++ "/chat/completions",
          buildPayload mainConfig.model
            (String.intercalate " " (msg0.content.filterMap contentText?))
            (msg0.content.filterMap contentImage?))] :=
  c8_encode_total mainConfig msg0 (stubConn "refused")

/-- C9: the payload built from any multimodal message has exactly one
text element; it is the first content element and its text is the
space-joined concatenation of the text parts of the message in order (the
empty string when the message has no text part). -/
theorem c9_single_text_element (cfg : OllamaConfig) (message : MultiModalMessage) :
    ∃ um content,
      messagesOf (buildPayload cfg.model
          (String.intercalate " " (message.content.filterMap contentText?))
          (message.content.filterMap contentImage?)) = some [um]
      ∧ contentOf um = some content
      ∧ content.countP isTextElem = 1
      ∧ content.head?
          = some (textElem (String.intercalate " " (message.content.filterMap contentText?)))
      ∧ (message.content.filterMap contentText? = [] →
          content.head? = some (textElem "")) := by
  refine ⟨_, _, rfl, rfl, countP_isTextElem _ _, rfl, ?_⟩
  intro h
  rw [h]
  rfl

/-- C9 (interpreted instance): the single text element for a message with
two text parts and one image. -/
theorem c9_single_text_element_witness :
    ∃ um content,
      messagesOf (buildPayload mainConfig.model
          (String.intercalate " " (msg9.content.filterMap contentText?))
          (msg9.content.filterMap contentImage?)) = some [um]
      ∧ contentOf um = some content
      ∧ content.countP isTextElem = 1
      ∧ content.head?
          = some (textElem (String.intercalate " " (msg9.content.filterMap contentText?)))
      ∧ (msg9.content.filterMap contentText? = [] →
          content.head? = some (textElem "")) :=
  c9_single_text_element mainConfig msg9

/-- C10: `process_message` is total — it returns an `AssistantResponse`
whose role is "assistant" for every message and every transport outcome,
and whenever the except branch ran its content is "Error: " followed by
the exception text. -/
theorem c10_no_exception (cfg : OllamaConfig) (message : MultiModalMessage)
    (transport : Transport) :
    (process_message cfg message transport).response.role = "assistant"
    ∧ ((process_message cfg message transport).failed = true →
        ∃ rest, (process_message cfg message transport).response.content
          = "Error: " ++ rest) :=
  ⟨respOf_role _, fun h => respOf_error _ h⟩

/-- C10 (witness): at a concrete message and failing transport, the role
is "assistant" and the content carries the "Error: " marker. -/
theorem c10_no_exception_witness :
    (process_message mainConfig msg0 (stubConn "refused")).failed = true
    ∧ (process_message mainConfig msg0 (stubConn "refused")).response.role = "assistant"
    ∧ ∃ rest, (process_message mainConfig msg0 (stubConn "refused")).response.content
        = "Error: " ++ rest :=
  ⟨rfl, (c10_no_exception mainConfig msg0 (stubConn "refused")).1,
    (c10_no_exception mainConfig msg0 (stubConn "refused")).2 rfl⟩

end OllamaGemma
